import Mathlib

/-!
Shallow embedding of the Erf-AI model service (Express + TensorFlow.js glue):
the runtime adapter `src/services/aiService.js`, the AI controller
(`aiController.js`), the auth controller (`authController.js`) and the
dataset controller (`src/controllers/datasetController.js`), together with
the small fragment of JavaScript evaluation semantics (string coercion of
`array + number`, member lookup on string primitives, array indexing by a
non-canonical key) that the code's behaviour depends on.

Numbers flowing through the tensor library are modelled as rationals; the
library itself (tensor construction, `fit`, `predict`, `loadLayersModel`,
`model.save`) is a black box supplied as an environment record, per the
spec's external-interface contract.
-/

/-! ## A fragment of JavaScript value semantics -/

/-- A JavaScript value as it appears in the fields this development tracks:
a number, a string, or an array of numbers. -/
inductive JsVal where
  | num : ℚ → JsVal
  | str : String → JsVal
  | arr : List ℚ → JsVal
deriving DecidableEq, Repr

/-- `ToString` of a JavaScript number, restricted to the natural-number
values that occur here (epoch indices). -/
def jsNatToString (n : ℕ) : String := toString n

/-- `Array.prototype.toString`: elements joined with commas. -/
def jsArrToString (xs : List ℕ) : String :=
  String.intercalate "," (xs.map jsNatToString)

/-- JavaScript `+` for the operand shapes that occur in the controller:
number + number adds; an array operand is converted by `ToPrimitive` to its
comma-joined string and the result is string concatenation. In particular
`[0] + 1` evaluates to the string `"01"`. -/
def jsAdd : JsVal → JsVal → JsVal
  | .num a, .num b => .num (a + b)
  | .arr xs, .num b =>
      .str (jsArrToString (xs.map (fun q => q.num.toNat)) ++ jsNatToString b.num.toNat)
  | .num a, .arr ys =>
      .str (jsNatToString a.num.toNat ++ jsArrToString (ys.map (fun q => q.num.toNat)))
  | .str a, .str b => .str (a ++ b)
  | .str a, .num b => .str (a ++ jsNatToString b.num.toNat)
  | .num a, .str b => .str (jsNatToString a.num.toNat ++ b)
  | .arr xs, .arr ys =>
      .str (jsArrToString (xs.map (fun q => q.num.toNat)) ++
            jsArrToString (ys.map (fun q => q.num.toNat)))
  | .str a, .arr ys => .str (a ++ jsArrToString (ys.map (fun q => q.num.toNat)))
  | .arr xs, .str b => .str (jsArrToString (xs.map (fun q => q.num.toNat)) ++ b)

/-- JavaScript indexing of a numeric array by a list-of-naturals key, as in
`result.history.loss[result.epoch]` where `result.epoch` is an array: the
key is stringified; a one-element array stringifies to a canonical index and
hits that element, any other array stringifies to a key such as `"0,1"` that
no array element owns, yielding `undefined` (`none`). -/
def jsIndexByArr (xs : List ℚ) (key : List ℕ) : Option ℚ :=
  match key with
  | [i] => xs.get? i
  | _ => none

/-- The member names that `saveModel` accesses on its string argument and
that a JavaScript string primitive actually provides. `join` is absent: in
the source the parameter `path` shadows the imported `path` module, so
`path.join(MODELS_DIR, cleanPath)` is a member access on a string and
raises `TypeError`. -/
def jsStringMemberNames : List String :=
  ["startsWith", "replace", "length", "toString"]

/-- Whether a string primitive has the given member. -/
def jsStringHasMember (m : String) : Bool := jsStringMemberNames.contains m

/-- `String.prototype.startsWith`, modelled on the character sequence. -/
def strStartsWith (s pre : String) : Bool := pre.data.isPrefixOf s.data

/-- `Math.max(...xs)`: the spread of an empty array gives `-Infinity`,
which has no rational counterpart, so the empty case is `none`; a nonempty
array folds binary `max` over its elements. -/
def jsMathMax : List ℚ → Option ℚ
  | [] => none
  | x :: xs => some (xs.foldl max x)

/-! ## The runtime adapter (`src/services/aiService.js`) -/

/-- Configuration payload of one layer: the optional `inputShape` entry the
adapter manipulates explicitly, plus the rest of the configuration object,
kept opaque. -/
structure LayerConfig where
  inputShape : Option (List ℕ) := none
  payload : String := ""
deriving DecidableEq, Repr

/-- One entry of an architecture descriptor: `{type, config}`. -/
structure ArchLayer where
  type : String
  config : LayerConfig := {}
deriving DecidableEq, Repr

/-- An architecture descriptor: ordered layer list plus optional input
shape, as destructured by `createModelFromArchitecture`. -/
structure Architecture where
  layers : List ArchLayer
  inputShape : Option (List ℕ) := none
deriving DecidableEq, Repr

/-- A constructed layer of the in-memory model: its tf layer kind, its
configuration, and its `trainable` flag (default `true` on construction). -/
structure Layer where
  type : String
  config : LayerConfig := {}
  trainable : Bool := true
deriving DecidableEq, Repr

/-- The in-memory tf model: the ordered layers added to the sequential
model, and whether `compile` has been called (`model.optimizer` truthy). -/
structure TfModel where
  layers : List Layer
  compiled : Bool := false
deriving DecidableEq, Repr

/-- Hyperparameters stored by the adapter (shape only; the values are
opaque strings/rationals). -/
structure Hyper where
  optimizer : Option String := none
  lossFunction : Option String := none
  learningRate : Option ℚ := none
deriving DecidableEq, Repr

/-- The mutable fields of the `AIService` singleton. -/
structure AdapterState where
  model : Option TfModel := none
  transferBaseModel : Option TfModel := none
  modelArchitecture : Option Architecture := none
  hyperparameters : Option Hyper := none
  isTransferLearning : Bool := false
  frozenLayers : List ℕ := []
deriving DecidableEq, Repr

/-- The result of `model.fit`: tf.js `History`, whose `epoch` field is the
list of completed epoch indices and whose `history` holds per-epoch loss
and accuracy. -/
structure FitHistory where
  epoch : List ℕ
  loss : List ℚ
  acc : List ℚ
deriving DecidableEq, Repr

/-- The external tensor library, per the spec's black-box contract: loading
a serialized model yields its layers (or fails), prediction maps one input
row to one output row, `fit` produces a history (or fails), `save` accepts
a url and reports success. -/
structure TfEnv where
  loadLayersModel : String → Except String (List Layer)
  predictRow : List ℚ → List ℚ
  fit : List (List ℚ) → List (List ℚ) → ℕ → ℕ → Except String FitHistory
  save : String → Bool

/-- Per-row confidence in `predict`: a single-output row uses
`value > 0.5 ? value : 1 - value`; a multi-output row uses
`Math.max(...predArray)` (so an empty row gives `-Infinity`, `none`). -/
def confidenceOf (predArray : List ℚ) : Option ℚ :=
  if predArray.length = 1 then
    some (if predArray.headI > 1/2 then predArray.headI else 1 - predArray.headI)
  else
    jsMathMax predArray

/-- The value returned by `aiService.predict`: raw prediction rows plus the
confidence array. -/
structure PredictResult where
  predictions : List (List ℚ)
  confidence : List (Option ℚ)
deriving DecidableEq, Repr

/-- `aiService.predict(inputData)`: throws `NoModelError` without a live
model; otherwise the library maps each input row to a prediction row, and
confidences are mapped over the prediction rows in order. -/
def predictService (env : TfEnv) (st : AdapterState) (inputData : List (List ℚ)) :
    Except String PredictResult :=
  if st.model.isNone then
    .error "No model available. Create or load a model first."
  else
    let results := inputData.map env.predictRow
    .ok { predictions := results, confidence := results.map confidenceOf }

/-- The layer-type strings handled by the `switch` in
`createModelFromArchitecture`; any other type hits the `default` branch,
which logs a warning and adds nothing. -/
def supportedLayerTypes : List String :=
  ["dense", "conv2d", "maxPooling2d", "flatten", "dropout", "lstm", "gru", "batchNormalization"]

/-- The layer built from the architecture entry at a given index: the
first list entry (`index === 0`) has the architecture's `inputShape`
spliced into its config (`inputShape || layerConfig.inputShape`); a fresh
tf layer is trainable. -/
def builtArchLayer (inputShape : Option (List ℕ)) (il : ℕ × ArchLayer) : Layer :=
  { type := il.2.type
    config :=
      if il.1 = 0 then
        { il.2.config with inputShape := inputShape.orElse (fun _ => il.2.config.inputShape) }
      else il.2.config
    trainable := true }

/-- One iteration of the `layers.forEach((layer, index) => ...)` loop: the
`switch` adds a layer for a supported type; the `default` branch logs
`Unsupported layer type` and adds nothing. -/
def addArchLayer (inputShape : Option (List ℕ)) (acc : List Layer) (il : ℕ × ArchLayer) : List Layer :=
  if supportedLayerTypes.contains il.2.type then
    acc ++ [builtArchLayer inputShape il]
  else
    acc

/-- `createModelFromArchitecture`: builds a sequential model by the forEach
loop above, then compiles it with stored-or-default hyperparameters. -/
def createModelFromArchitecture (arch : Architecture) : TfModel :=
  { layers := arch.layers.enum.foldl (addArchLayer arch.inputShape) []
    compiled := true }

/-- Copying one base-model layer in `setupTransferLearning`:
`layer.getConfig()` carries the layer's configuration including its
`trainable` flag, the layer is rebuilt from that config and added, and the
freeze branch then sets `trainable = false` on the added layer. -/
def copyBaseLayer (freezeBaseLayers : Bool) (l : Layer) : Layer :=
  { type := l.type
    config := l.config
    trainable := if freezeBaseLayers then false else l.trainable }

/-- One iteration of the `baseModelLayers.forEach((layer, index) => ...)`
loop: output-layer indices are skipped; otherwise the copied layer is
appended and, when freezing, the index is pushed onto `frozenLayers`. -/
def transferStep (freezeBaseLayers : Bool) (outputLayers : List ℕ)
    (acc : List Layer × List ℕ) (il : ℕ × Layer) : List Layer × List ℕ :=
  if outputLayers.contains il.1 then acc
  else
    (acc.1 ++ [copyBaseLayer freezeBaseLayers il.2],
     if freezeBaseLayers then acc.2 ++ [il.1] else acc.2)

/-- `setupTransferLearning(baseModelPath, freezeBaseLayers = true,
outputLayers = [])`: loads the base model (rethrowing a load failure),
defaults an empty `outputLayers` to the final layer's index, and runs the
copy/freeze loop. `frozenLayers` is pushed onto, not reset, here — the
reset happens in `loadModel`. When the base model has no layers the JS
index `length - 1 = -1` matches nothing and the loop body never runs, so
the ℕ-truncated `0 - 1 = 0` is indistinguishable from it. -/
def setupTransferLearning (env : TfEnv) (st : AdapterState) (baseModelPath : String)
    (freezeBaseLayers : Bool := true) (outputLayers : List ℕ := []) :
    Except String AdapterState :=
  match env.loadLayersModel baseModelPath with
  | .error e => .error e
  | .ok baseModelLayers =>
    let st1 := { st with
      transferBaseModel := some { layers := baseModelLayers }
      isTransferLearning := true }
    let effOutputLayers :=
      if outputLayers.isEmpty then [baseModelLayers.length - 1] else outputLayers
    let res := baseModelLayers.enum.foldl
      (transferStep freezeBaseLayers effOutputLayers) ([], st1.frozenLayers)
    .ok { st1 with
      model := some { layers := res.1, compiled := false }
      frozenLayers := res.2 }

/-- The `modelConfig` argument of `loadModel`. -/
structure ModelConfig where
  architecture : Option Architecture := none
  hyperparameters : Option Hyper := none
  baseModelPath : Option String := none
  transferLearning : Bool := false
  freezeBaseLayers : Option Bool := none
  outputLayers : Option (List ℕ) := none
deriving DecidableEq, Repr

/-- The fallback model built when neither a path nor a config is supplied:
dense 10→100→50→1 with sigmoid output, compiled with fixed defaults. -/
def defaultModel : TfModel :=
  { layers :=
      [ { type := "dense", config := { inputShape := some [10], payload := "units:100,relu" } }
      , { type := "dense", config := { payload := "units:50,relu" } }
      , { type := "dense", config := { payload := "units:1,sigmoid" } } ]
    compiled := true }

/-- `aiService.loadModel(modelPath = null, modelConfig = {})`: resets the
transfer-learning flags, then picks exactly one of four modes. Mode (b)'s
guard `modelConfig.architecture && modelConfig.architecture.layers` is
truthy whenever an architecture object is present (a layers array, even
empty, is truthy). Any exception is caught and turned into `false`. -/
def loadModel (env : TfEnv) (st : AdapterState)
    (modelPath : Option String := none) (modelConfig : ModelConfig := {}) :
    Bool × AdapterState :=
  let st1 := { st with isTransferLearning := false, frozenLayers := [] }
  match modelPath with
  | some p =>
    match env.loadLayersModel p with
    | .ok ls => (true, { st1 with model := some { layers := ls, compiled := false } })
    | .error _ => (false, st1)
  | none =>
    match modelConfig.architecture with
    | some arch =>
      let st2 := { st1 with
        modelArchitecture := some arch
        hyperparameters := some (modelConfig.hyperparameters.getD {}) }
      (true, { st2 with model := some (createModelFromArchitecture arch) })
    | none =>
      match modelConfig.baseModelPath, modelConfig.transferLearning with
      | some bp, true =>
        match setupTransferLearning env st1 bp
            (modelConfig.freezeBaseLayers.getD true) (modelConfig.outputLayers.getD []) with
        | .ok st2 => (true, st2)
        | .error _ => (false, st1)
      | _, _ =>
        (true, { st1 with model := some defaultModel })

/-- The metadata envelope `saveModel` attaches to `model.save`. -/
structure SaveMeta where
  isTransferLearning : Bool
  frozenLayers : List ℕ
  modelArchitecture : Option Architecture
  hyperparameters : Option Hyper
  date : String
deriving DecidableEq, Repr

/-- What a successful `model.save` persisted: the resolved url and the
metadata envelope. -/
structure SavedRecord where
  url : String
  meta : SaveMeta
deriving DecidableEq, Repr

/-- The fixed models directory (`path.join(__dirname, "../../models")`). -/
def MODELS_DIR : String := "/app/models"

/-- `path.join` of the path module, two-argument form. -/
def pathJoin (a b : String) : String := a ++ "/" ++ b

/-- `aiService.saveModel(path, metadata = {})`: throws without a live model
(caught: `false`). For a path with none of the `file://`, `http://`,
`https://` prefixes the source runs
`` path = `file://${path.join(MODELS_DIR, cleanPath)}` `` — but `path` is
the string parameter, which shadows the path-module import, and a string
primitive has no `join` member, so the call raises `TypeError`, caught by
the surrounding `catch`: `false` is returned and nothing is saved. The
`jsStringHasMember "join"` branch spells out the intended normalization
that is unreachable at runtime. A prefixed path goes to `model.save` with
the metadata envelope. -/
def saveModel (env : TfEnv) (st : AdapterState) (p : String) (now : String) :
    Bool × Option SavedRecord :=
  if st.model.isNone then (false, none)
  else
    let meta : SaveMeta :=
      { isTransferLearning := st.isTransferLearning
        frozenLayers := st.frozenLayers
        modelArchitecture := st.modelArchitecture
        hyperparameters := st.hyperparameters
        date := now }
    if !(strStartsWith p "file://") && !(strStartsWith p "http://") && !(strStartsWith p "https://") then
      if jsStringHasMember "join" then
        let cleanPath := p
        let url := "file://" ++ pathJoin MODELS_DIR cleanPath
        if env.save url then (true, some { url := url, meta := meta }) else (false, none)
      else
        (false, none)
    else
      if env.save p then (true, some { url := p, meta := meta }) else (false, none)

/-- The fields of `getModelSummary` this development tracks: per-layer
trainability plus the transfer-learning report. -/
structure ModelSummary where
  layersTrainable : List Bool
  isTransferLearning : Bool
  frozenLayers : List ℕ
deriving DecidableEq, Repr

/-- `aiService.getModelSummary()`: throws without a live model, otherwise
reports the layers and the adapter's transfer-learning state. -/
def getModelSummary (st : AdapterState) : Except String ModelSummary :=
  match st.model with
  | none => .error "No model available. Create or load a model first."
  | some m =>
    .ok { layersTrainable := m.layers.map (fun l => l.trainable)
          isTransferLearning := st.isTransferLearning
          frozenLayers := st.frozenLayers }

/-- `aiService.trainModel(trainData, labels, epochs = 10, batchSize = 32,
...)`: with no live model, `this.model.optimizer` is a property read on
`null` and raises `TypeError` (there is no null check here, unlike
`predict`); otherwise the model is compiled if not yet compiled and the
library's fit loop runs. -/
def trainService (env : TfEnv) (st : AdapterState)
    (trainData labels : List (List ℚ)) (epochs : ℕ := 10) (batchSize : ℕ := 32) :
    Except String FitHistory × AdapterState :=
  match st.model with
  | none => (.error "TypeError: cannot read properties of null", st)
  | some m =>
    let m1 := if m.compiled then m else { m with compiled := true }
    (env.fit trainData labels epochs batchSize, { st with model := some m1 })

/-! ## HTTP layer common shapes -/

/-- The slice of an HTTP response the claims observe: status code and the
`success` flag of the JSON envelope. -/
structure HttpResp where
  code : ℕ
  success : Bool
deriving DecidableEq, Repr

/-! ## The AI model registry documents (`AIModel`) -/

/-- The persisted training history subdocument. `epochs` is kept as a raw
JavaScript value because the controller computes it with JavaScript `+`. -/
structure TrainHist where
  lastTrained : String
  epochs : JsVal
  loss : Option ℚ
  accuracy : Option ℚ
deriving DecidableEq, Repr

/-- An embedded training-data record. -/
structure TrainingRecord where
  data : List (List ℚ)
  labels : List (List ℚ)
deriving DecidableEq, Repr

/-- An embedded prediction record. -/
structure PredRecord where
  input : List (List ℚ)
  output : PredictResult
  requester : Option ℕ
deriving DecidableEq, Repr

/-- An `AIModel` document, with the fields the claims observe. -/
structure AIModelDoc where
  id : ℕ
  name : String := ""
  userId : ℕ
  isPublic : Bool := false
  status : String := "initialized"
  architecture : Option Architecture := none
  baseModel : Option ℕ := none
  freezeBaseLayers : Option Bool := none
  trainingHistory : Option TrainHist := none
  trainingData : List TrainingRecord := []
  predictions : List PredRecord := []
deriving DecidableEq, Repr

/-- `AIModel.findById`. -/
def findModelById (db : List AIModelDoc) (mid : ℕ) : Option AIModelDoc :=
  db.find? (fun d => d.id = mid)

/-- Replace the document with the given id (the in-place mutation plus
`save()` pattern of the controllers). -/
def updateModelById (db : List AIModelDoc) (mid : ℕ) (f : AIModelDoc → AIModelDoc) :
    List AIModelDoc :=
  db.map (fun d => if d.id = mid then f d else d)

/-- Modelled from the spec: `aiModel.addTrainingData(trainData, labels)`
lives in `src/models/aiModel.js`, which is not among the sources; per §3
the model embeds `trainingData` records, and per §4.1 mutators append and
persist synchronously. -/
def addTrainingData (d : AIModelDoc) (data labels : List (List ℚ)) : AIModelDoc :=
  { d with trainingData := d.trainingData ++ [{ data := data, labels := labels }] }

/-- Modelled from the spec: `aiModel.addPrediction(inputData, predictions,
userIdObj)` lives in `src/models/aiModel.js`, which is not among the
sources; per §3 the model embeds `predictions` records (input, output,
optional requester), appended and persisted synchronously. -/
def addPrediction (d : AIModelDoc) (input : List (List ℚ)) (output : PredictResult)
    (requester : Option ℕ) : AIModelDoc :=
  { d with predictions := d.predictions ++
      [{ input := input, output := output, requester := requester }] }

/-- Modelled from the spec: `sourceModel.clone(userId, options)` lives in
`src/models/aiModel.js`, which is not among the sources; per §4.1 it
"produces a new document whose `architecture` is copied from the source,
`baseModel` points at the source, status reset to `initialized`", owned by
the requester, with the `{name, description, freezeBaseLayers}` options
recorded on the new document. -/
def cloneDoc (source : AIModelDoc) (requester : ℕ) (newId : ℕ)
    (name : Option String) (freezeBaseLayers : Bool) : AIModelDoc :=
  { id := newId
    name := name.getD source.name
    userId := requester
    isPublic := false
    status := "initialized"
    architecture := source.architecture
    baseModel := some source.id
    freezeBaseLayers := some freezeBaseLayers }

/-! ## The AI controller (`aiController.js`) -/

/-- Request body of `POST /ai/train`. -/
structure TrainReq where
  modelId : Option ℕ
  trainData : Option (List (List ℚ))
  labels : Option (List (List ℚ))
  epochs : Option ℕ := none
  batchSize : Option ℕ := none
deriving Repr

/-- `trainModel` controller: validates `trainData`/`labels` then `modelId`
(400), resolves the document (404), appends the training data, runs the
adapter's fit, and on success sets `status = "trained"` and writes
`trainingHistory` with `epochs: result.epoch + 1` (JavaScript `+` on the
epoch-index array) and `loss`/`accuracy` indexed by the epoch array. A
failure in the fit step is caught and answered with 500 — the document's
`status` is not touched on that path. -/
def trainModelHandler (env : TfEnv) (db : List AIModelDoc) (ad : AdapterState)
    (req : TrainReq) (now : String) :
    HttpResp × List AIModelDoc × AdapterState :=
  match req.trainData, req.labels with
  | some trainData, some labels =>
    match req.modelId with
    | none => ({ code := 400, success := false }, db, ad)
    | some mid =>
      match findModelById db mid with
      | none => ({ code := 404, success := false }, db, ad)
      | some _ =>
        let db1 := updateModelById db mid (fun d => addTrainingData d trainData labels)
        match trainService env ad trainData labels (req.epochs.getD 10) (req.batchSize.getD 32) with
        | (.error _, ad1) => ({ code := 500, success := false }, db1, ad1)
        | (.ok result, ad1) =>
          let hist : TrainHist :=
            { lastTrained := now
              epochs := jsAdd (JsVal.arr (result.epoch.map (fun n => (n : ℚ)))) (JsVal.num 1)
              loss := jsIndexByArr result.loss result.epoch
              accuracy := jsIndexByArr result.acc result.epoch }
          let db2 := updateModelById db1 mid
            (fun d => { d with status := "trained", trainingHistory := some hist })
          ({ code := 200, success := true }, db2, ad1)
  | _, _ => ({ code := 400, success := false }, db, ad)

/-- Request body of `POST /ai/predict`. -/
structure PredictReq where
  modelId : Option ℕ
  inputData : Option (List (List ℚ))
  userId : Option ℕ := none
deriving Repr

/-- `predict` controller: validates `inputData` then `modelId` (400),
resolves the document (404), runs the adapter's predict, and on success
appends a prediction record and answers 200. A failure in the prediction
step is caught and answered with 500 — the document's `status` is not
touched on that path. -/
def predictHandler (env : TfEnv) (db : List AIModelDoc) (ad : AdapterState)
    (req : PredictReq) :
    HttpResp × List AIModelDoc × AdapterState :=
  match req.inputData with
  | none => ({ code := 400, success := false }, db, ad)
  | some inputData =>
    match req.modelId with
    | none => ({ code := 400, success := false }, db, ad)
    | some mid =>
      match findModelById db mid with
      | none => ({ code := 404, success := false }, db, ad)
      | some _ =>
        match predictService env ad inputData with
        | .error _ => ({ code := 500, success := false }, db, ad)
        | .ok out =>
          let db1 := updateModelById db mid
            (fun d => addPrediction d inputData out req.userId)
          ({ code := 200, success := true }, db1, ad)

/-- Request body of `POST /ai/clone`. -/
structure CloneReq where
  modelId : Option ℕ
  name : Option String := none
  description : Option String := none
  freezeBaseLayers : Option Bool := none
deriving DecidableEq, Repr

/-- `cloneModelForTransfer` controller: validates `modelId` (400), resolves
the source (404), grants access iff the requester owns the source or it is
public (403 otherwise, nothing created), then clones with
`freezeBaseLayers: freezeBaseLayers !== false` (so anything but an explicit
`false` means `true`). -/
def cloneModelForTransfer (db : List AIModelDoc) (requester : ℕ) (req : CloneReq)
    (newId : ℕ) : HttpResp × List AIModelDoc :=
  match req.modelId with
  | none => ({ code := 400, success := false }, db)
  | some mid =>
    match findModelById db mid with
    | none => ({ code := 404, success := false }, db)
    | some sourceModel =>
      let hasAccess := sourceModel.userId = requester || sourceModel.isPublic
      if !hasAccess then
        ({ code := 403, success := false }, db)
      else
        let newModel := cloneDoc sourceModel requester newId req.name
          (req.freezeBaseLayers ≠ some false)
        ({ code := 200, success := true }, db ++ [newModel])

/-! ## The auth controller (`authController.js`) -/

/-- A `User` document, with the fields the claims observe. -/
structure UserDoc where
  username : String
  email : Option String := none
  role : String
  fullName : String := ""
deriving DecidableEq, Repr

/-- Modelled from the spec: the `User` schema default for `role` lives in
`src/models/userModel.js`, which is not among the sources; per §3 the role
is `user`|`admin` and per §8 "all subsequent accounts default to `user`".
-/
def defaultUserRole : String := "user"

/-- Modelled from the spec: `User.findByUsernameOrEmail` lives in
`src/models/userModel.js`, which is not among the sources; it resolves an
account whose username or email equals the argument. -/
def findByUsernameOrEmail (db : List UserDoc) (s : String) : Option UserDoc :=
  db.find? (fun u => u.username = s || u.email = some s)

/-- Request body of `POST /auth/register`. -/
structure RegisterReq where
  username : Option String
  password : Option String
  email : Option String := none
  fullName : Option String := none
deriving DecidableEq, Repr

/-- `register` controller: requires username and password (400), rejects a
taken username or email (400), and creates the account — with
`role = 'admin'` when `User.countDocuments()` is zero, and the schema
default role otherwise. -/
def register (db : List UserDoc) (req : RegisterReq) : HttpResp × List UserDoc :=
  match req.username, req.password with
  | some username, some _ =>
    let existingUser :=
      (findByUsernameOrEmail db username).orElse
        (fun _ => req.email.bind (fun e => findByUsernameOrEmail db e))
    if existingUser.isSome then
      ({ code := 400, success := false }, db)
    else
      let role := if db.length = 0 then "admin" else defaultUserRole
      let user : UserDoc :=
        { username := username
          email := req.email
          role := role
          fullName := (req.fullName.getD username) }
      ({ code := 201, success := true }, db ++ [user])
  | _, _ => ({ code := 400, success := false }, db)

/-- Run a sequence of registration requests against a user store. -/
def runRegistrations (db : List UserDoc) (reqs : List RegisterReq) : List UserDoc :=
  reqs.foldl (fun acc r => (register acc r).2) db

/-! ## The dataset controller (`src/controllers/datasetController.js`) -/

/-- A `Dataset` document, with the fields the claims observe. `isActive`
defaults to `true`: modelled from the spec for the schema default
(`src/models/datasetModel.js` is not among the sources; per §3 `isActive`
is the soft-delete flag and `deleteDataset` — which is in the sources —
sets it to `false`). -/
structure DatasetDoc where
  id : ℕ
  name : String
  creator : ℕ
  format : String := ""
  visibility : String := "private"
  isActive : Bool := true
deriving DecidableEq, Repr

/-- Request body of `POST /datasets` (the fields `createDataset` reads). -/
structure CreateDatasetReq where
  name : String
  description : Option String := none
  format : String := "csv"
  visibility : Option String := none
deriving DecidableEq, Repr

/-- `createDataset` controller: the duplicate check is
`Dataset.findOne({ name, creator: req.user._id })` — it does not filter on
`isActive`, so a soft-deleted dataset with the same name also triggers the
400 duplicate answer. Otherwise the dataset is created (active). -/
def createDataset (db : List DatasetDoc) (userId : ℕ) (req : CreateDatasetReq)
    (newId : ℕ) : HttpResp × List DatasetDoc :=
  let existingDataset := db.find? (fun d => d.name = req.name && d.creator = userId)
  if existingDataset.isSome then
    ({ code := 400, success := false }, db)
  else
    let dataset : DatasetDoc :=
      { id := newId
        name := req.name
        creator := userId
        format := req.format
        visibility := req.visibility.getD "private" }
    ({ code := 201, success := true }, db ++ [dataset])

/-- `deleteDataset` controller: resolves the dataset (404), requires the
requester to be the creator (403), then soft-deletes by setting
`isActive = false` and saving. -/
def deleteDataset (db : List DatasetDoc) (userId : ℕ) (dsId : ℕ) :
    HttpResp × List DatasetDoc :=
  match db.find? (fun d => d.id = dsId) with
  | none => ({ code := 404, success := false }, db)
  | some dataset =>
    if dataset.creator ≠ userId then
      ({ code := 403, success := false }, db)
    else
      ({ code := 200, success := true },
       db.map (fun d => if d.id = dsId then { d with isActive := false } else d))

/-- The role column of a user store. -/
def rolesOf (db : List UserDoc) : List String := db.map (fun u => u.role)

/-- The expected role column for a store of `n` accounts created in order:
the first is `admin`, the rest are `user`. -/
def adminFirstRoles (n : ℕ) : List String :=
  if n = 0 then [] else "admin" :: List.replicate (n - 1) "user"

/-- A concrete, fully evaluable tensor-library environment used to
instantiate the theorems on closed inputs: loading always yields three
dense layers, prediction returns a single output `3/4`, `fit` completes
every requested epoch, saving succeeds. -/
def envDemo : TfEnv :=
  { loadLayersModel := fun _ =>
      .ok [{ type := "dense" }, { type := "dense" }, { type := "dense" }]
    predictRow := fun _ => [3/4]
    fit := fun _ _ epochs _ =>
      .ok { epoch := List.range epochs
            loss := List.replicate epochs (1/2)
            acc := List.replicate epochs (9/10) }
    save := fun _ => true }

/-! ## Closed forms of the construction loops -/

lemma addArchLayer_foldl (inputShape : Option (List ℕ)) :
    ∀ (l : List (ℕ × ArchLayer)) (acc : List Layer),
      l.foldl (addArchLayer inputShape) acc =
        acc ++ (l.filter (fun il => supportedLayerTypes.contains il.2.type)).map
          (builtArchLayer inputShape) := by
  intro l
  induction l with
  | nil => intro acc; simp
  | cons x xs ih =>
    intro acc
    rw [List.foldl_cons, ih]
    by_cases h : x.2.type ∈ supportedLayerTypes
    · simp [addArchLayer, List.filter_cons, h]
    · simp [addArchLayer, List.filter_cons, h]

lemma transferStep_foldl (freeze : Bool) (out : List ℕ) :
    ∀ (l : List (ℕ × Layer)) (acc : List Layer × List ℕ),
      l.foldl (transferStep freeze out) acc =
        (acc.1 ++ (l.filter (fun il => !(out.contains il.1))).map
            (fun il => copyBaseLayer freeze il.2),
         acc.2 ++ (if freeze then
            (l.filter (fun il => !(out.contains il.1))).map Prod.fst else [])) := by
  intro l
  induction l with
  | nil => intro acc; simp
  | cons x xs ih =>
    intro acc
    rw [List.foldl_cons, ih]
    by_cases h : x.1 ∈ out
    · simp [transferStep, List.filter_cons, h]
    · by_cases hf : freeze = true
      · simp [transferStep, List.filter_cons, h, hf]
      · simp [transferStep, List.filter_cons, h, hf]

/-! ## Helper facts about the embedded operations -/

theorem confidence_singleton_eq_max (p : ℚ) :
    confidenceOf [p] = some (max p (1 - p)) := by
  have h1 : confidenceOf [p] = some (if p > 1/2 then p else 1 - p) := by
    simp [confidenceOf]
  rw [h1]
  rcases le_or_lt p (1/2) with h | h
  · rw [if_neg (not_lt.mpr h), max_eq_right (by linarith)]
  · rw [if_pos h, max_eq_left (by linarith)]

lemma foldl_max_mem (xs : List ℚ) (x : ℚ) : xs.foldl max x ∈ x :: xs := by
  induction xs generalizing x with
  | nil => exact List.mem_singleton.mpr rfl
  | cons y ys ih =>
    rw [List.foldl_cons]
    rcases List.mem_cons.mp (ih (max x y)) with h | h
    · rcases max_choice x y with hm | hm
      · rw [h, hm]; exact List.mem_cons_self x (y :: ys)
      · rw [h, hm]; exact List.mem_cons_of_mem x (List.mem_cons_self y ys)
    · exact List.mem_cons_of_mem x (List.mem_cons_of_mem y h)

lemma le_foldl_max (xs : List ℚ) (x : ℚ) : ∀ z ∈ x :: xs, z ≤ xs.foldl max x := by
  induction xs generalizing x with
  | nil =>
    intro z hz
    rcases List.mem_singleton.mp hz with rfl
    exact le_refl z
  | cons y ys ih =>
    intro z hz
    rw [List.foldl_cons]
    rcases List.mem_cons.mp hz with rfl | hz2
    · exact le_trans (le_max_left z y) (ih (max z y) _ (List.mem_cons_self _ _))
    · rcases List.mem_cons.mp hz2 with rfl | hz3
      · exact le_trans (le_max_right x z) (ih (max x z) _ (List.mem_cons_self _ _))
      · exact ih (max x y) _ (List.mem_cons_of_mem _ hz3)

theorem jsMathMax_spec (l : List ℚ) (hl : l ≠ []) :
    ∃ m, jsMathMax l = some m ∧ m ∈ l ∧ ∀ x ∈ l, x ≤ m := by
  match l, hl with
  | x :: xs, _ =>
    exact ⟨xs.foldl max x, rfl, foldl_max_mem xs x, le_foldl_max xs x⟩


/-! ## Claim theorems -/

/-- C1: on a live model, `predict` succeeds and returns per-row confidences
computed from the prediction rows in input order: a single-output row `[p]`
gives `max(p, 1-p)`, which is always at least `1/2` and, for `p ∈ [0,1]`,
at most `1`; a row with more than one output gives the maximum of that
row. -/
theorem claim_C1_predict_confidence (env : TfEnv) (st : AdapterState)
    (inputData : List (List ℚ)) (hlive : st.model.isSome = true) :
    ∃ out, predictService env st inputData = .ok out ∧
      out.predictions = inputData.map env.predictRow ∧
      out.confidence = out.predictions.map confidenceOf ∧
      (∀ p : ℚ, confidenceOf [p] = some (max p (1 - p))) ∧
      (∀ p : ℚ, 1/2 ≤ max p (1 - p)) ∧
      (∀ p : ℚ, 0 ≤ p → p ≤ 1 → max p (1 - p) ≤ 1) ∧
      (∀ row : List ℚ, 1 < row.length →
        ∃ m, confidenceOf row = some m ∧ m ∈ row ∧ ∀ x ∈ row, x ≤ m) := by
  rcases Option.isSome_iff_exists.mp hlive with ⟨m, hm⟩
  refine ⟨{ predictions := inputData.map env.predictRow
            confidence := (inputData.map env.predictRow).map confidenceOf },
    ?_, rfl, rfl, confidence_singleton_eq_max, ?_, ?_, ?_⟩
  · simp [predictService, hm]
  · intro p
    rcases le_total p (1/2) with h | h
    · exact le_max_iff.mpr (Or.inr (by linarith))
    · exact le_max_iff.mpr (Or.inl h)
  · intro p h0 h1
    exact max_le h1 (by linarith)
  · intro row hrow
    have hne : row ≠ [] := by
      intro h
      rw [h] at hrow
      simp at hrow
    have hlen : ¬(row.length = 1) := by omega
    have hconf : confidenceOf row = jsMathMax row := by
      simp [confidenceOf, hlen]
    rw [hconf]
    exact jsMathMax_spec row hne

/-- C1 witness: the theorem applied on a concrete live adapter and input. -/
theorem claim_C1_predict_confidence_witness :
    ∃ out, predictService envDemo { model := some defaultModel } [[1/4, 1/2]] = .ok out ∧
      out.predictions = [[1/4, 1/2]].map envDemo.predictRow ∧
      out.confidence = out.predictions.map confidenceOf ∧
      (∀ p : ℚ, confidenceOf [p] = some (max p (1 - p))) ∧
      (∀ p : ℚ, 1/2 ≤ max p (1 - p)) ∧
      (∀ p : ℚ, 0 ≤ p → p ≤ 1 → max p (1 - p) ≤ 1) ∧
      (∀ row : List ℚ, 1 < row.length →
        ∃ m, confidenceOf row = some m ∧ m ∈ row ∧ ∀ x ∈ row, x ≤ m) :=
  claim_C1_predict_confidence envDemo { model := some defaultModel } [[1/4, 1/2]] rfl

/-- C3: refuted as stated — for every live model and every save path
without a `file://`, `http://` or `https://` prefix, `saveModel` returns
`false` and persists nothing: in the normalization line the parameter
`path` shadows the path-module import, so `path.join(...)` is a member
access on a string primitive and raises `TypeError`, which the catch
converts to `false`. -/
theorem claim_C3_relative_save_fails (env : TfEnv) (st : AdapterState)
    (p now : String) (hlive : st.model.isSome = true)
    (h1 : strStartsWith p "file://" = false) (h2 : strStartsWith p "http://" = false)
    (h3 : strStartsWith p "https://" = false) :
    saveModel env st p now = (false, none) := by
  have hNone : st.model.isNone = false := by
    rcases Option.isSome_iff_exists.mp hlive with ⟨m, hm⟩
    rw [hm]
    rfl
  have hj : jsStringHasMember "join" = false := by decide
  simp [saveModel, hNone, h1, h2, h3, hj]

/-- C3 witness: saving a live default model to the relative path
`my-model` fails and persists nothing. -/
theorem claim_C3_relative_save_fails_witness :
    saveModel envDemo { model := some defaultModel } "my-model" "2025-01-01" = (false, none) :=
  claim_C3_relative_save_fails envDemo { model := some defaultModel } "my-model" "2025-01-01"
    rfl (by decide) (by decide) (by decide)

/-- C4: from the reset state `loadModel` establishes,
`setupTransferLearning` builds the new model from exactly the base layers
whose index is not among the output-layer indices (defaulted to the final
index when empty), in their original order; with freezing on, every copied
layer is non-trainable and the kept indices are recorded; with freezing
off, nothing is recorded. -/
theorem claim_C4_transfer_learning_layers (env : TfEnv) (st : AdapterState)
    (baseModelPath : String) (freeze : Bool) (outputLayers : List ℕ)
    (baseModelLayers : List Layer)
    (hload : env.loadLayersModel baseModelPath = .ok baseModelLayers)
    (hreset : st.frozenLayers = []) :
    ∃ st2, setupTransferLearning env st baseModelPath freeze outputLayers = .ok st2 ∧
      st2.model = some
        { layers := ((baseModelLayers.enum.filter (fun il =>
              !((if outputLayers.isEmpty then [baseModelLayers.length - 1]
                 else outputLayers).contains il.1))).map
            (fun il => copyBaseLayer freeze il.2))
          compiled := false } ∧
      st2.frozenLayers = (if freeze then
          (baseModelLayers.enum.filter (fun il =>
              !((if outputLayers.isEmpty then [baseModelLayers.length - 1]
                 else outputLayers).contains il.1))).map Prod.fst
        else []) ∧
      (freeze = true → ∀ l ∈ ((baseModelLayers.enum.filter (fun il =>
              !((if outputLayers.isEmpty then [baseModelLayers.length - 1]
                 else outputLayers).contains il.1))).map
            (fun il => copyBaseLayer freeze il.2)), l.trainable = false) := by
  simp only [setupTransferLearning, hload]
  refine ⟨_, rfl, ?_, ?_, ?_⟩
  · simp only [transferStep_foldl, hreset]
    rfl
  · simp only [transferStep_foldl, hreset]
    simp
  · intro hf l hl
    rcases List.mem_map.mp hl with ⟨il, _, rfl⟩
    simp [copyBaseLayer, hf]

/-- C4 witness: the theorem applied with a three-layer base model, freezing
on and the output-layer list defaulted. -/
theorem claim_C4_transfer_learning_layers_witness :
    ∃ st2, setupTransferLearning envDemo {} "base" true [] = .ok st2 ∧
      st2.model = some
        { layers := ((([{ type := "dense" }, { type := "dense" },
              { type := "dense" }] : List Layer).enum.filter (fun il =>
              !((if ([] : List ℕ).isEmpty then
                  [([{ type := "dense" }, { type := "dense" },
                     { type := "dense" }] : List Layer).length - 1]
                 else []).contains il.1))).map
            (fun il => copyBaseLayer true il.2))
          compiled := false } ∧
      st2.frozenLayers = (if true then
          ((([{ type := "dense" }, { type := "dense" },
              { type := "dense" }] : List Layer).enum.filter (fun il =>
              !((if ([] : List ℕ).isEmpty then
                  [([{ type := "dense" }, { type := "dense" },
                     { type := "dense" }] : List Layer).length - 1]
                 else []).contains il.1))).map Prod.fst)
        else []) ∧
      (true = true → ∀ l ∈ ((([{ type := "dense" }, { type := "dense" },
              { type := "dense" }] : List Layer).enum.filter (fun il =>
              !((if ([] : List ℕ).isEmpty then
                  [([{ type := "dense" }, { type := "dense" },
                     { type := "dense" }] : List Layer).length - 1]
                 else []).contains il.1))).map
            (fun il => copyBaseLayer true il.2)), l.trainable = false) :=
  claim_C4_transfer_learning_layers envDemo {} "base" true []
    [{ type := "dense" }, { type := "dense" }, { type := "dense" }] rfl rfl

/-- C5: loading from an architecture descriptor succeeds and the model
contains exactly the layers whose type is supported, in descriptor order;
unsupported types are skipped without aborting, and `loadModel` still
reports `true`. -/
theorem claim_C5_architecture_supported_layers (env : TfEnv) (st : AdapterState)
    (arch : Architecture) (hp : Option Hyper) :
    loadModel env st none { architecture := some arch, hyperparameters := hp } =
      (true,
       { st with
          isTransferLearning := false
          frozenLayers := []
          modelArchitecture := some arch
          hyperparameters := some (hp.getD {})
          model := some
            { layers := (arch.layers.enum.filter
                (fun il => supportedLayerTypes.contains il.2.type)).map
                (builtArchLayer arch.inputShape)
              compiled := true } }) := by
  simp [loadModel, createModelFromArchitecture, addArchLayer_foldl]

/-- C6 counterexample: user 2 creates dataset "sales" (201), soft-deletes
it (200, the only "sales" dataset of user 2 now has `isActive = false`),
then re-creates "sales" — the claim says this succeeds because only a
soft-deleted dataset holds the name, but the duplicate check has no
`isActive` filter: the call answers 400 and creates nothing. -/
theorem claim_C6_soft_delete_counterexample :
    ((createDataset [] 2 { name := "sales" } 1).1.code = 201) ∧
    ((deleteDataset (createDataset [] 2 { name := "sales" } 1).2 2 1).1.code = 200) ∧
    (∀ d ∈ (deleteDataset (createDataset [] 2 { name := "sales" } 1).2 2 1).2,
        d.isActive = false) ∧
    ((createDataset (deleteDataset (createDataset [] 2 { name := "sales" } 1).2 2 1).2
        2 { name := "sales" } 2).1.code = 400) ∧
    ((createDataset (deleteDataset (createDataset [] 2 { name := "sales" } 1).2 2 1).2
        2 { name := "sales" } 2).2 =
      (deleteDataset (createDataset [] 2 { name := "sales" } 1).2 2 1).2) := by
  refine ⟨rfl, rfl, ?_, rfl, rfl⟩
  intro d hd
  simp [createDataset, deleteDataset] at hd
  rw [hd]

/-- C6 amended: a dataset creation request is rejected with 400 and
creates no record exactly when the same creator already has any dataset
with that name, active or soft-deleted — names of soft-deleted datasets
cannot be reused by their creator; otherwise the request answers 201 and
appends the new active dataset. Uniqueness is still per creator: other
creators are unaffected. -/
theorem claim_C6_duplicate_name_any_activity (db : List DatasetDoc) (userId : ℕ)
    (req : CreateDatasetReq) (newId : ℕ) :
    (((createDataset db userId req newId).1.code = 400 ∧
      (createDataset db userId req newId).2 = db)
        ↔ ∃ d ∈ db, d.name = req.name ∧ d.creator = userId) ∧
    ((¬ ∃ d ∈ db, d.name = req.name ∧ d.creator = userId) →
      (createDataset db userId req newId).1.code = 201 ∧
      (createDataset db userId req newId).2 = db ++
        [{ id := newId, name := req.name, creator := userId, format := req.format,
           visibility := req.visibility.getD "private" }]) := by
  have hiff : (db.find? (fun d => d.name = req.name && d.creator = userId)).isSome = true
      ↔ ∃ d ∈ db, d.name = req.name ∧ d.creator = userId := by
    rw [List.find?_isSome]
    constructor
    · rintro ⟨d, hd, hp⟩
      exact ⟨d, hd, by simpa using hp⟩
    · rintro ⟨d, hd, h1, h2⟩
      exact ⟨d, hd, by simp [h1, h2]⟩
  rcases hfind : db.find? (fun d => d.name = req.name && d.creator = userId) with _ | d
  · have hns : ¬ ∃ d ∈ db, d.name = req.name ∧ d.creator = userId := by
      intro hex
      have h2 := hiff.mpr hex
      rw [hfind] at h2
      simp at h2
    have hres : createDataset db userId req newId =
        ({ code := 201, success := true }, db ++
          [{ id := newId, name := req.name, creator := userId, format := req.format,
             visibility := req.visibility.getD "private" }]) := by
      simp [createDataset, hfind]
    refine ⟨⟨?_, fun hex => absurd hex hns⟩, fun _ => by rw [hres]; exact ⟨rfl, rfl⟩⟩
    rintro ⟨habs, -⟩
    rw [hres] at habs
    simp at habs
  · have hres : createDataset db userId req newId = ({ code := 400, success := false }, db) := by
      simp [createDataset, hfind]
    have hSome : (db.find? (fun d => d.name = req.name && d.creator = userId)).isSome = true := by
      rw [hfind]
      rfl
    refine ⟨⟨fun _ => hiff.mp hSome, fun _ => by rw [hres]; exact ⟨rfl, rfl⟩⟩,
      fun hex => absurd (hiff.mp hSome) hex⟩

/-- C6 amended witness: the theorem applied on the empty store: creation
succeeds and appends the new active dataset. -/
theorem claim_C6_duplicate_name_any_activity_witness :
    ((((createDataset [] 2 { name := "sales" } 3).1.code = 400 ∧
       (createDataset [] 2 { name := "sales" } 3).2 = [])
        ↔ ∃ d ∈ ([] : List DatasetDoc), d.name = "sales" ∧ d.creator = 2) ∧
     ((¬ ∃ d ∈ ([] : List DatasetDoc), d.name = "sales" ∧ d.creator = 2) →
       (createDataset [] 2 { name := "sales" } 3).1.code = 201 ∧
       (createDataset [] 2 { name := "sales" } 3).2 = [] ++
         [{ id := 3, name := "sales", creator := 2, format := "csv",
            visibility := (none : Option String).getD "private" }])) :=
  claim_C6_duplicate_name_any_activity [] 2 { name := "sales" } 3

/-- One registration step preserves the role-column invariant: the store's
roles stay `admin` first, `user` after. -/
lemma register_roles_step (db : List UserDoc) (r : RegisterReq)
    (h : rolesOf db = adminFirstRoles db.length) :
    rolesOf (register db r).2 = adminFirstRoles (register db r).2.length := by
  unfold register
  rcases r.username with _ | username
  · exact h
  · rcases r.password with _ | pw
    · exact h
    · by_cases hex : (((findByUsernameOrEmail db username).orElse
        (fun _ => r.email.bind (fun e => findByUsernameOrEmail db e))).isSome) = true
      · simp only [hex, if_true]
        exact h
      · simp only [hex, Bool.false_eq_true, if_false]
        by_cases hlen : db.length = 0
        · have hdb : db = [] := List.length_eq_zero.mp hlen
          subst hdb
          rfl
        · simp only [rolesOf, List.map_append, List.map_cons, List.map_nil, hlen, if_neg hlen]
          rw [rolesOf] at h
          rw [h, adminFirstRoles, if_neg hlen, adminFirstRoles, List.length_append]
          simp only [List.length_cons, List.length_nil]
          have h1 : db.length + (0 + 1) ≠ 0 := by omega
          rw [if_neg h1]
          have h2 : db.length + (0 + 1) - 1 = (db.length - 1) + 1 := by omega
          rw [h2, List.replicate_succ']
          rfl

/-- C7: running any sequence of registration requests from the empty user
store, the first successfully created account has role `admin` and every
later one the default role `user`: the store's role column is always
`admin` followed by `user`s. -/
theorem claim_C7_first_user_admin (reqs : List RegisterReq) :
    rolesOf (runRegistrations [] reqs) =
      adminFirstRoles (runRegistrations [] reqs).length := by
  have general : ∀ (rs : List RegisterReq) (db : List UserDoc),
      rolesOf db = adminFirstRoles db.length →
      rolesOf (runRegistrations db rs) = adminFirstRoles (runRegistrations db rs).length := by
    intro rs
    induction rs with
    | nil => intro db h; exact h
    | cons r rest ih =>
      intro db h
      have hstep := register_roles_step db r h
      simpa [runRegistrations] using ih (register db r).2 hstep
  exact general reqs [] rfl

/-- C8: a clone request on an existing source model is answered 403 with
nothing created unless the requester owns the source or it is public; on
success the new document's `baseModel` references the source id and
`freezeBaseLayers` is `true` whenever the request did not explicitly pass
`false`. -/
theorem claim_C8_clone_access_and_defaults (db : List AIModelDoc) (requester : ℕ)
    (req : CloneReq) (newId mid : ℕ) (source : AIModelDoc)
    (hmid : req.modelId = some mid)
    (hfind : findModelById db mid = some source) :
    (source.userId ≠ requester → source.isPublic = false →
      (cloneModelForTransfer db requester req newId).1.code = 403 ∧
      (cloneModelForTransfer db requester req newId).2 = db) ∧
    ((source.userId = requester ∨ source.isPublic = true) →
      (cloneModelForTransfer db requester req newId).1.code = 200 ∧
      (cloneModelForTransfer db requester req newId).2 =
        db ++ [cloneDoc source requester newId req.name (req.freezeBaseLayers ≠ some false)] ∧
      (cloneDoc source requester newId req.name
          (req.freezeBaseLayers ≠ some false)).baseModel = some source.id ∧
      (req.freezeBaseLayers ≠ some false →
        (cloneDoc source requester newId req.name
          (req.freezeBaseLayers ≠ some false)).freezeBaseLayers = some true)) := by
  constructor
  · intro hne hnp
    have hacc : (decide (source.userId = requester) || source.isPublic) = false := by
      simp [hne, hnp]
    simp [cloneModelForTransfer, hmid, hfind, hacc]
  · intro hacc
    have hacc2 : (decide (source.userId = requester) || source.isPublic) = true := by
      rcases hacc with h | h
      · simp [h]
      · simp [h]
    refine ⟨?_, ?_, rfl, ?_⟩
    · simp [cloneModelForTransfer, hmid, hfind, hacc2]
    · simp [cloneModelForTransfer, hmid, hfind, hacc2]
    · intro hfz
      simp [cloneDoc, hfz]

/-- C8 witness: a non-owner cloning a public source model, with
`freezeBaseLayers` not passed. -/
theorem claim_C8_clone_access_and_defaults_witness :
    ((({ id := 5, userId := 1, isPublic := true } : AIModelDoc).userId ≠ 2 →
      ({ id := 5, userId := 1, isPublic := true } : AIModelDoc).isPublic = false →
      (cloneModelForTransfer [{ id := 5, userId := 1, isPublic := true }] 2
        { modelId := some 5 } 9).1.code = 403 ∧
      (cloneModelForTransfer [{ id := 5, userId := 1, isPublic := true }] 2
        { modelId := some 5 } 9).2 = [{ id := 5, userId := 1, isPublic := true }]) ∧
    ((({ id := 5, userId := 1, isPublic := true } : AIModelDoc).userId = 2 ∨
      ({ id := 5, userId := 1, isPublic := true } : AIModelDoc).isPublic = true) →
      (cloneModelForTransfer [{ id := 5, userId := 1, isPublic := true }] 2
        { modelId := some 5 } 9).1.code = 200 ∧
      (cloneModelForTransfer [{ id := 5, userId := 1, isPublic := true }] 2
        { modelId := some 5 } 9).2 =
        [{ id := 5, userId := 1, isPublic := true }] ++
          [cloneDoc { id := 5, userId := 1, isPublic := true } 2 9 none
            (({ modelId := some 5 } : CloneReq).freezeBaseLayers ≠ some false)] ∧
      (cloneDoc { id := 5, userId := 1, isPublic := true } 2 9 none
          (({ modelId := some 5 } : CloneReq).freezeBaseLayers ≠ some false)).baseModel =
        some ({ id := 5, userId := 1, isPublic := true } : AIModelDoc).id ∧
      (({ modelId := some 5 } : CloneReq).freezeBaseLayers ≠ some false →
        (cloneDoc { id := 5, userId := 1, isPublic := true } 2 9 none
          (({ modelId := some 5 } : CloneReq).freezeBaseLayers ≠ some false)).freezeBaseLayers =
          some true))) :=
  claim_C8_clone_access_and_defaults [{ id := 5, userId := 1, isPublic := true }] 2
    { modelId := some 5 } 9 5 { id := 5, userId := 1, isPublic := true } rfl rfl

/-- C2 counterexample: a `POST /ai/predict` request that resolves model 1
(status `initialized`) and then fails in the prediction step (no live
model in the adapter) is answered 500, yet the persisted model's status is
still `initialized` — the handler never writes `error`. -/
theorem claim_C2_error_status_counterexample :
    ((predictHandler envDemo [{ id := 1, userId := 7 }] {}
        { modelId := some 1, inputData := some [[1]] }).1.code = 500) ∧
    ((predictHandler envDemo [{ id := 1, userId := 7 }] {}
        { modelId := some 1, inputData := some [[1]] }).2.1.map (fun d => d.status) =
      ["initialized"]) ∧
    ("initialized" : String) ≠ "error" := by
  refine ⟨rfl, rfl, by decide⟩

/-- C2 amended: when a train or predict request resolves an existing model
and the training/prediction step then fails, the handler answers 500 and
leaves every persisted model's `status` unchanged — it does not set
`error` (in this codebase only `initializeModel` writes an `error`
status, when the adapter fails to load). -/
theorem claim_C2_amended_failure_leaves_status (env : TfEnv) (db : List AIModelDoc)
    (ad : AdapterState) (now : String) :
    (∀ (mid : ℕ) (data labels : List (List ℚ)) (eps bs : Option ℕ)
        (m : AIModelDoc) (err : String),
      findModelById db mid = some m →
      (trainService env ad data labels (eps.getD 10) (bs.getD 32)).1 = .error err →
      (trainModelHandler env db ad
        { modelId := some mid, trainData := some data, labels := some labels,
          epochs := eps, batchSize := bs } now).1.code = 500 ∧
      (trainModelHandler env db ad
        { modelId := some mid, trainData := some data, labels := some labels,
          epochs := eps, batchSize := bs } now).2.1.map (fun d => (d.id, d.status)) =
        db.map (fun d => (d.id, d.status))) ∧
    (∀ (mid : ℕ) (input : List (List ℚ)) (uid : Option ℕ)
        (m : AIModelDoc) (err : String),
      findModelById db mid = some m →
      predictService env ad input = .error err →
      (predictHandler env db ad
        { modelId := some mid, inputData := some input, userId := uid }).1.code = 500 ∧
      (predictHandler env db ad
        { modelId := some mid, inputData := some input, userId := uid }).2.1 = db) := by
  constructor
  · intro mid data labels eps bs m err hfind hfail
    rcases hts : trainService env ad data labels (eps.getD 10) (bs.getD 32) with ⟨fst, ad1⟩
    rw [hts] at hfail
    simp only at hfail
    subst hfail
    have hmap : (updateModelById db mid (fun d => addTrainingData d data labels)).map
        (fun d => (d.id, d.status)) = db.map (fun d => (d.id, d.status)) := by
      rw [updateModelById, List.map_map]
      apply List.map_congr_left
      intro d _
      by_cases hid : d.id = mid
      · simp [Function.comp, hid, addTrainingData]
      · simp [Function.comp, hid]
    constructor
    · simp [trainModelHandler, hfind, hts]
    · simpa [trainModelHandler, hfind, hts] using hmap
  · intro mid input uid m err hfind hfail
    constructor
    · simp [predictHandler, hfind, hfail]
    · simp [predictHandler, hfind, hfail]

/-- C2 amended witness: both handlers applied on a store holding model 1
and an adapter with no live model, so the service step fails. -/
theorem claim_C2_amended_failure_leaves_status_witness :
    ((trainModelHandler envDemo [{ id := 1, userId := 7 }] {}
        { modelId := some 1, trainData := some [[1]], labels := some [[1]],
          epochs := none, batchSize := none } "t").1.code = 500 ∧
     (trainModelHandler envDemo [{ id := 1, userId := 7 }] {}
        { modelId := some 1, trainData := some [[1]], labels := some [[1]],
          epochs := none, batchSize := none } "t").2.1.map (fun d => (d.id, d.status)) =
       [({ id := 1, userId := 7 } : AIModelDoc)].map (fun d => (d.id, d.status))) ∧
    ((predictHandler envDemo [{ id := 1, userId := 7 }] {}
        { modelId := some 1, inputData := some [[1]], userId := none }).1.code = 500 ∧
     (predictHandler envDemo [{ id := 1, userId := 7 }] {}
        { modelId := some 1, inputData := some [[1]], userId := none }).2.1 =
       [{ id := 1, userId := 7 }]) :=
  ⟨(claim_C2_amended_failure_leaves_status envDemo [{ id := 1, userId := 7 }] {} "t").1
      1 [[1]] [[1]] none none { id := 1, userId := 7 }
      "TypeError: cannot read properties of null" rfl rfl,
   (claim_C2_amended_failure_leaves_status envDemo [{ id := 1, userId := 7 }] {} "t").2
      1 [[1]] none { id := 1, userId := 7 }
      "No model available. Create or load a model first." rfl rfl⟩


/-- Updating a document in place does not move it: looking it up afterwards
finds the updated document, provided the update preserves the id. -/
lemma findModelById_update (db : List AIModelDoc) (mid : ℕ) (f : AIModelDoc → AIModelDoc)
    (hf : ∀ d, (f d).id = d.id) :
    findModelById (updateModelById db mid f) mid = (findModelById db mid).map f := by
  rw [findModelById, updateModelById, List.find?_map]
  have hpred : ((fun x : AIModelDoc => decide (x.id = mid)) ∘
      (fun d => if d.id = mid then f d else d)) =
      (fun d : AIModelDoc => decide (d.id = mid)) := by
    funext d
    by_cases hd : d.id = mid
    · simp [Function.comp, hd, hf d]
    · simp [Function.comp, hd]
  rw [hpred, findModelById]
  rcases hfind2 : db.find? (fun d => decide (d.id = mid)) with _ | d
  · rw [hfind2]
    rfl
  · rw [hfind2]
    have hd : d.id = mid := by
      have := List.find?_some hfind2
      simpa using this
    simp [if_pos hd]

/-- C9: scenario A, settled against the code — training model 1 with
`trainData = [[0.1]*10]`, `labels = [[1]]`, `epochs = 1` succeeds (200)
and the status moves from `initialized` to `trained`, but the persisted
`trainingHistory.epochs` is the string `"01"`, not the number 1: the
controller computes `result.epoch + 1`, the fit result's `epoch` field is
the array of completed epoch indices, and JavaScript `+` on an array
operand is string concatenation. -/
theorem claim_C9_train_scenario_epochs_string (env : TfEnv) (db : List AIModelDoc)
    (m : AIModelDoc) (l a : ℚ) (now : String)
    (hfind : findModelById db 1 = some m)
    (hstatus : m.status = "initialized")
    (hfit : env.fit [List.replicate 10 (1/10)] [[1]] 1 32 =
      .ok { epoch := List.range 1, loss := [l], acc := [a] }) :
    (trainModelHandler env db { model := some defaultModel }
      { modelId := some 1, trainData := some [List.replicate 10 (1/10)],
        labels := some [[1]], epochs := some 1, batchSize := none } now).1.code = 200 ∧
    ∃ d, findModelById (trainModelHandler env db { model := some defaultModel }
      { modelId := some 1, trainData := some [List.replicate 10 (1/10)],
        labels := some [[1]], epochs := some 1, batchSize := none } now).2.1 1 = some d ∧
      d.status = "trained" ∧
      ∃ h, d.trainingHistory = some h ∧
        h.epochs = JsVal.str "01" ∧ h.epochs ≠ JsVal.num 1 ∧
        h.loss = some l ∧ h.accuracy = some a := by
  have h0 : trainService env { model := some defaultModel }
      [List.replicate 10 (1/10)] [[1]] 1 32 =
      (env.fit [List.replicate 10 (1/10)] [[1]] 1 32, { model := some defaultModel }) := rfl
  have h1 : trainService env { model := some defaultModel }
      [List.replicate 10 (1/10)] [[1]] 1 32 =
      (.ok { epoch := List.range 1, loss := [l], acc := [a] },
       { model := some defaultModel }) := by
    rw [h0, hfit]
  have hepochs : jsAdd (JsVal.arr ((List.range 1).map (fun n => (n : ℚ)))) (JsVal.num 1) =
      JsVal.str "01" := by decide
  have hr : trainModelHandler env db { model := some defaultModel }
      { modelId := some 1, trainData := some [List.replicate 10 (1/10)],
        labels := some [[1]], epochs := some 1, batchSize := none } now =
      ({ code := 200, success := true },
       updateModelById (updateModelById db 1
           (fun d => addTrainingData d [List.replicate 10 (1/10)] [[1]])) 1
         (fun d => { d with
             status := "trained"
             trainingHistory :=
               some { lastTrained := now
                      epochs := jsAdd (JsVal.arr ((List.range 1).map (fun n => (n : ℚ))))
                                  (JsVal.num 1)
                      loss := jsIndexByArr [l] (List.range 1)
                      accuracy := jsIndexByArr [a] (List.range 1) } }),
       { model := some defaultModel }) := by
    simp only [trainModelHandler, hfind, Option.getD_some, Option.getD_none, h1]
  refine ⟨by rw [hr], ?_⟩
  rw [hr]
  dsimp only
  rw [findModelById_update, findModelById_update, hfind]
  · simp only [Option.map_some']
    refine ⟨_, rfl, rfl, _, rfl, hepochs, ?_, rfl, rfl⟩
    show jsAdd (JsVal.arr ((List.range 1).map (fun n => (n : ℚ)))) (JsVal.num 1) ≠ JsVal.num 1
    rw [hepochs]
    decide
  · exact fun d => rfl
  · exact fun d => rfl

/-- C9 witness: the theorem applied with the concrete demo library, whose
fit completes every requested epoch. -/
theorem claim_C9_train_scenario_epochs_string_witness :
    (trainModelHandler envDemo [{ id := 1, userId := 7 }] { model := some defaultModel }
      { modelId := some 1, trainData := some [List.replicate 10 (1/10)],
        labels := some [[1]], epochs := some 1, batchSize := none } "t").1.code = 200 ∧
    ∃ d, findModelById (trainModelHandler envDemo [{ id := 1, userId := 7 }]
        { model := some defaultModel }
      { modelId := some 1, trainData := some [List.replicate 10 (1/10)],
        labels := some [[1]], epochs := some 1, batchSize := none } "t").2.1 1 = some d ∧
      d.status = "trained" ∧
      ∃ h, d.trainingHistory = some h ∧
        h.epochs = JsVal.str "01" ∧ h.epochs ≠ JsVal.num 1 ∧
        h.loss = some (1/2) ∧ h.accuracy = some (9/10) :=
  claim_C9_train_scenario_epochs_string envDemo [{ id := 1, userId := 7 }]
    { id := 1, userId := 7 } (1/2) (9/10) "t" rfl rfl rfl

/-- A summary reports exactly the adapter's transfer-learning state. -/
lemma getModelSummary_reports_state (st : AdapterState) (s : ModelSummary)
    (h : getModelSummary st = .ok s) :
    s.isTransferLearning = st.isTransferLearning ∧ s.frozenLayers = st.frozenLayers := by
  rcases hm : st.model with _ | m
  · rw [getModelSummary, hm] at h
    cases h
  · rw [getModelSummary, hm] at h
    cases h
    exact ⟨rfl, rfl⟩

/-- A successful save writes the adapter's transfer-learning state into the
metadata envelope. -/
lemma saveModel_meta_from_state (env : TfEnv) (st : AdapterState) (p now : String)
    (rec : SavedRecord) (h : (saveModel env st p now).2 = some rec) :
    rec.meta.isTransferLearning = st.isTransferLearning ∧
    rec.meta.frozenLayers = st.frozenLayers := by
  dsimp only [saveModel] at h
  split_ifs at h with h1 h2 h3 h4 h5 <;>
    first
      | (cases h; exact ⟨rfl, rfl⟩)
      | cases h

/-- C10: a successful `loadModel` that does not take the transfer-learning
mode leaves the adapter with `isTransferLearning = false` and an empty
`frozenLayers` list (the reset at the top of `loadModel`), so neither
`getModelSummary` nor a later successful `saveModel` can report stale
frozen-layer state from a previously loaded model. -/
theorem claim_C10_loadModel_resets_transfer_state (env : TfEnv) (st : AdapterState)
    (modelPath : Option String) (cfg : ModelConfig)
    (hmode : modelPath.isSome = true ∨ cfg.architecture.isSome = true ∨
      ¬(cfg.baseModelPath.isSome = true ∧ cfg.transferLearning = true))
    (hok : (loadModel env st modelPath cfg).1 = true) :
    (loadModel env st modelPath cfg).2.isTransferLearning = false ∧
    (loadModel env st modelPath cfg).2.frozenLayers = [] ∧
    (∀ s, getModelSummary (loadModel env st modelPath cfg).2 = .ok s →
      s.isTransferLearning = false ∧ s.frozenLayers = []) ∧
    (∀ p now rec, (saveModel env (loadModel env st modelPath cfg).2 p now).2 = some rec →
      rec.meta.isTransferLearning = false ∧ rec.meta.frozenLayers = []) := by
  have hflags : (loadModel env st modelPath cfg).2.isTransferLearning = false ∧
      (loadModel env st modelPath cfg).2.frozenLayers = [] := by
    rcases modelPath with _ | p
    · rcases harch : cfg.architecture with _ | arch
      · rcases hbp : cfg.baseModelPath with _ | bp
        · simp [loadModel, harch, hbp]
        · rcases htl : cfg.transferLearning with _ | _
          · simp [loadModel, harch, hbp, htl]
          · exfalso
            rcases hmode with h | h | h
            · simp at h
            · rw [harch] at h
              simp at h
            · exact h ⟨by rw [hbp]; rfl, htl⟩
      · simp [loadModel, harch]
    · rcases hL : env.loadLayersModel p with e | ls
      · exfalso
        rw [loadModel] at hok
        simp [hL] at hok
      · simp [loadModel, hL]
  refine ⟨hflags.1, hflags.2, ?_, ?_⟩
  · intro s hs
    have hrep := getModelSummary_reports_state _ s hs
    exact ⟨hrep.1.trans hflags.1, hrep.2.trans hflags.2⟩
  · intro p now rec hrec
    have hrep := saveModel_meta_from_state env _ p now rec hrec
    exact ⟨hrep.1.trans hflags.1, hrep.2.trans hflags.2⟩

/-- C10 witness: the theorem applied to the default-model mode (no path,
empty config) on an adapter carrying stale transfer-learning state. -/
theorem claim_C10_loadModel_resets_transfer_state_witness :
    (loadModel envDemo { isTransferLearning := true, frozenLayers := [0, 1] } none {}).2.isTransferLearning = false ∧
    (loadModel envDemo { isTransferLearning := true, frozenLayers := [0, 1] } none {}).2.frozenLayers = [] ∧
    (∀ s, getModelSummary (loadModel envDemo
        { isTransferLearning := true, frozenLayers := [0, 1] } none {}).2 = .ok s →
      s.isTransferLearning = false ∧ s.frozenLayers = []) ∧
    (∀ p now rec, (saveModel envDemo (loadModel envDemo
        { isTransferLearning := true, frozenLayers := [0, 1] } none {}).2 p now).2 = some rec →
      rec.meta.isTransferLearning = false ∧ rec.meta.frozenLayers = []) :=
  claim_C10_loadModel_resets_transfer_state envDemo
    { isTransferLearning := true, frozenLayers := [0, 1] } none {}
    (Or.inr (Or.inr (by simp))) rfl
